import Mathlib

/-!
Verification of the DOS mouse driver emulation subsystem of DOSBox Staging
(src/hardware/input/mouseif_dos_driver.cpp and mouseif_dos_driver_state.cpp).

The driver state resident in guest memory (accessed through the
MouseDriverState typed accessors) and the host-side module statics (pending
event data, hardware button mirror, wheel counter) are embedded as one Lean
structure `MouseState`.  C++ `float` values are modelled as exact rationals
(the claims under study concern the algorithmic structure of the arithmetic,
not IEEE-754 rounding); 8/16-bit machine integers are modelled as `Nat`/`Int`
with explicit `% 65536` (or clamping) where the source wraps or clamps.
External collaborators (video BIOS, host resolution, configuration flags) are
an explicit environment record `Env`.
-/

/-- Two's-complement reinterpretation of a 16-bit register value as a signed
integer; embeds `reg_to_signed16` (a `static_cast<int16_t>` of a `uint16_t`). -/
def toSigned16 (x : Nat) : Int :=
  if x % 65536 < 32768 then ((x % 65536 : Nat) : Int)
  else ((x % 65536 : Nat) : Int) - 65536

/-- Two's-complement truncation of a signed integer to 16 bits, as an unsigned
register value; embeds `signed_to_reg16` and C++ integer-to-`uint16_t` casts. -/
def toUInt16Reg (z : Int) : Nat := (z % 65536).toNat

/-- `std::lround`: round half away from zero. -/
def lroundQ (q : Rat) : Int :=
  if q < 0 then -(Int.floor (-q + 1/2)) else Int.floor (q + 1/2)

/-- C++ `static_cast` from a floating-point value to an integer type:
truncation toward zero. -/
def truncQ (q : Rat) : Int := if q < 0 then Int.ceil q else Int.floor q

/-- `std::clamp(v, lo, hi)`: `lo` if `v < lo`, else `hi` if `hi < v`, else `v`. -/
def cppClamp {α : Type} [LinearOrder α] (v lo hi : α) : α :=
  if v < lo then lo else if hi < v then hi else v

/-- `std::copysign(mag, x)` for our rational float model (the sign of `x = 0`
is positive, as for IEEE `+0.0`). -/
def copysignQ (mag x : Rat) : Rat := if x < 0 then -mag else mag

/-- Modelled from the spec: `clamp_to_int8` lives in `math_utils.h`, which is
not under src/; only its unit tests (tests/math_utils_tests.cpp) are.  Those
tests pin its behaviour exactly: clamp the argument into the `int8_t` range
[-128, 127]. -/
def clamp_to_int8 (v : Int) : Int := cppClamp v (-128) 127

/-- Modelled from the spec: `MOUSE_ClampRelativeMovement` is declared in the
mouse interface headers, whose implementation file is not under src/.  The
spec says relative deltas are each clamped to a safe numeric range before
accumulation; a symmetric clamp to a fixed safe bound is used here.  None of
the claims depend on the numeric value of the bound. -/
def MOUSE_ClampRelativeMovement (rel : Rat) : Rat := cppClamp rel (-2048) 2048

/-- Modelled from the spec: `MouseButtons12S` (mouse.h, not under src/) is a
3-bit struct of left/right/middle button states whose `_data` member is the
packed bitmask (bit 0 = left, bit 1 = right, bit 2 = middle). -/
structure Buttons where
  left : Bool
  right : Bool
  middle : Bool
deriving DecidableEq, Repr

/-- The `_data` packed bitmask of a `MouseButtons12S`. -/
def Buttons.data (b : Buttons) : Nat :=
  (cond b.left 1 0) + (cond b.right 2 0) + (cond b.middle 4 0)

/-- `MouseCursorType` from mouseif_dos_driver_state.h. -/
inductive MouseCursorType where
  | Software
  | Hardware
  | Text
deriving DecidableEq, Repr

/-- The combined driver-visible state: the guest-memory-resident
`MouseDriverState` fields the claims touch, plus the host-side module statics
of mouseif_dos_driver.cpp (`pending`, `pending_*` flags, `buttons`,
`counter_w`, `use_relative`, `is_input_raw`, delay-timer flags, and the
placeholder `static struct { bool xxx; } state` used by INT 33h functions
0x15/0x16/0x17). -/
structure MouseState where
  -- guest-resident driver state (MouseDriverState instance)
  mickeysPerPixelX : Rat
  mickeysPerPixelY : Rat
  pixelsPerMickeyX : Rat
  pixelsPerMickeyY : Rat
  sensitivityCoeffX : Rat
  sensitivityCoeffY : Rat
  absoluteX : Rat
  absoluteY : Rat
  mickeyCounterX : Rat
  mickeyCounterY : Rat
  timesPressed : List Nat
  timesReleased : List Nat
  lastPressedX : List Nat
  lastPressedY : List Nat
  lastReleasedX : List Nat
  lastReleasedY : List Nat
  lastWheelMovedX : Nat
  lastWheelMovedY : Nat
  wheelApi : Bool
  granularityX : Nat
  granularityY : Nat
  sensitivityX : Nat
  sensitivityY : Nat
  unknown01 : Nat
  minPosX : Int
  maxPosX : Int
  minPosY : Int
  maxPosY : Int
  hidden : Nat
  updateRegionY2 : Int
  inhibitDraw : Bool
  hotX : Int
  hotY : Int
  cursorType : MouseCursorType
  userScreenMask : Bool
  userCursorMask : Bool
  userScreenMaskData : List Nat
  userCursorMaskData : List Nat
  userCallbackMask : Nat
  -- host-side placeholder `static struct { bool xxx; } state` (one byte)
  dummyXxx : Nat
  -- host-side statics
  pendingMoved : Bool
  pendingButton : Bool
  pendingWheel : Bool
  pendingButtonState : Buttons
  buttons : Buttons
  counterW : Int
  useRelative : Bool
  isInputRaw : Bool
  pendingXRel : Rat
  pendingYRel : Rat
  pendingXAbs : Nat
  pendingYAbs : Nat
  pendingWRel : Int
  delayRunning : Bool
  delayFinished : Bool

/-- External collaborators and configuration: `mouse_config.dos_immediate`,
`INT10_IsTextMode(*CurMode)`, `INT10_GetTextColumns/Rows`, and
`mouse_shared.resolution_x/y`. -/
structure Env where
  dosImmediate : Bool
  isTextMode : Bool
  textColumns : Nat
  textRows : Nat
  resolutionX : Nat
  resolutionY : Nat
deriving DecidableEq, Repr

/-- `get_pos_x`: the granularity-masked reported x position. -/
def get_pos_x (s : MouseState) : Nat :=
  Nat.land (toUInt16Reg (lroundQ s.absoluteX)) s.granularityX

/-- `get_pos_y`: the granularity-masked reported y position. -/
def get_pos_y (s : MouseState) : Nat :=
  Nat.land (toUInt16Reg (lroundQ s.absoluteY)) s.granularityY

/-- The `calculate_coeff` lambda of `set_sensitivity`: sensitivity 0 stops
cursor movement; otherwise the coefficient is `((value-1)^2)/3600 + 1/3`. -/
def calculate_coeff (value : Nat) : Rat :=
  if value = 0 then 0
  else ((value : Rat) - 1) * ((value : Rat) - 1) / 3600 + 1/3

/-- `set_sensitivity(sensitivity_x, sensitivity_y, unknown)`: clamps each
setting to at most 100, stores the raw bytes, and recomputes the derived
sensitivity coefficients. -/
def set_sensitivity (sx sy su : Nat) (s : MouseState) : MouseState :=
  let tx := min 100 sx
  let ty := min 100 sy
  let tu := min 100 su
  { s with
    sensitivityX := tx
    sensitivityY := ty
    unknown01 := tu
    sensitivityCoeffX := calculate_coeff tx
    sensitivityCoeffY := calculate_coeff ty }

/-- The `calculate_d` lambda of `update_mickeys_on_move`: converts a relative
host delta to a cursor displacement, applying the sensitivity coefficient
unless the input already has host acceleration applied and the motion is
small with a coefficient at least 1. -/
def calculate_d (rel ppm coeff : Rat) (isInputRaw : Bool) : Rat :=
  let d := rel * ppm
  if isInputRaw = false ∨ |rel| > 1 ∨ coeff < 1 then d * coeff else d

/-- The `update_mickey` lambda of `update_mickeys_on_move`: accumulates into
the mickey counter and wraps by `copysign(65536, mickey)` past the 16-bit
signed boundary. -/
def update_mickey (mickey d mpp : Rat) : Rat :=
  let m := mickey + d * mpp
  if m > 32767.5 ∨ m < -32768.5 then m - copysignQ 65536 m else m

/-- `update_mickeys_on_move`: returns the displacement pair (dx, dy) and the
state with both mickey counters updated. -/
def update_mickeys_on_move (xRel yRel : Rat) (s : MouseState) :
    Rat × Rat × MouseState :=
  let dx := calculate_d xRel s.pixelsPerMickeyX s.sensitivityCoeffX s.isInputRaw
  let dy := calculate_d yRel s.pixelsPerMickeyY s.sensitivityCoeffY s.isInputRaw
  (dx, dy,
    { s with
      mickeyCounterX := update_mickey s.mickeyCounterX dx s.mickeysPerPixelX
      mickeyCounterY := update_mickey s.mickeyCounterY dy s.mickeysPerPixelY })

/-- `move_cursor_captured`: relative (captured) motion model. -/
def move_cursor_captured (xRel yRel : Rat) (s : MouseState) : MouseState :=
  let r := update_mickeys_on_move xRel yRel s
  { r.2.2 with
    absoluteX := r.2.2.absoluteX + r.1
    absoluteY := r.2.2.absoluteY + r.2.1 }

/-- `move_cursor_seamless`: absolute (seamless) motion model; maps the
normalized host position through text-cell geometry or the guest range, or
falls back to relative accumulation for non-trivial ranges. -/
def move_cursor_seamless (env : Env) (xRel yRel : Rat) (xAbs yAbs : Nat)
    (s : MouseState) : MouseState :=
  let r := update_mickeys_on_move xRel yRel s
  let s1 := r.2.2
  let x : Rat := (xAbs : Rat) / ((env.resolutionX : Rat) - 1)
  let y : Rat := (yAbs : Rat) / ((env.resolutionY : Rat) - 1)
  let p : Rat × Rat :=
    if env.isTextMode then
      (x * 8 * (env.textColumns : Nat), y * 8 * (env.textRows : Nat))
    else if s1.maxPosX < 2048 ∨ s1.maxPosY < 2048 ∨ s1.maxPosX ≠ s1.maxPosY then
      if 0 < s1.maxPosX ∧ 0 < s1.maxPosY then
        (x * (s1.maxPosX : Int), y * (s1.maxPosY : Int))
      else
        (s1.absoluteX + xRel, s1.absoluteY + yRel)
    else
      (s1.absoluteX + xRel, s1.absoluteY + yRel)
  { s1 with absoluteX := p.1, absoluteY := p.2 }

/-- `limit_coordinates`: clamps the absolute position into the guest range. -/
def limit_coordinates (s : MouseState) : MouseState :=
  { s with
    absoluteX := cppClamp s.absoluteX (s.minPosX : Int) (s.maxPosX : Int)
    absoluteY := cppClamp s.absoluteY (s.minPosY : Int) (s.maxPosY : Int) }

/-- `move_cursor`: applies the pending motion by the captured or seamless
strategy, consumes the pending relative movement, clamps, and reports
`MouseHasMoved` (1) only when the reported position or a mickey counter
changed. -/
def move_cursor (env : Env) (s : MouseState) : Nat × MouseState :=
  let oldPosX := get_pos_x s
  let oldPosY := get_pos_y s
  let oldMickeyX := truncQ s.mickeyCounterX
  let oldMickeyY := truncQ s.mickeyCounterY
  let s1 :=
    if s.useRelative then
      move_cursor_captured (MOUSE_ClampRelativeMovement s.pendingXRel)
        (MOUSE_ClampRelativeMovement s.pendingYRel) s
    else
      move_cursor_seamless env s.pendingXRel s.pendingYRel
        s.pendingXAbs s.pendingYAbs s
  let s2 := { s1 with pendingXRel := 0, pendingYRel := 0 }
  let s3 := limit_coordinates s2
  let absChanged := oldPosX ≠ get_pos_x s3 ∨ oldPosY ≠ get_pos_y s3
  let relChanged := (oldMickeyX : Rat) ≠ s3.mickeyCounterX ∨
                    (oldMickeyY : Rat) ≠ s3.mickeyCounterY
  if absChanged ∨ relChanged then (1, s3) else (0, s3)

/-- `update_moved`: in immediate mode the motion was already applied at
notification time, so report `MouseHasMoved` directly. -/
def update_moved (env : Env) (s : MouseState) : Nat × MouseState :=
  if env.dosImmediate then (1, s) else move_cursor env s

/-- The `mark_pressed` lambda of `update_buttons`. -/
def mark_pressed (idx : Nat) (s : MouseState) : MouseState :=
  { s with
    lastPressedX := s.lastPressedX.set idx (get_pos_x s)
    lastPressedY := s.lastPressedY.set idx (get_pos_y s)
    timesPressed := s.timesPressed.set idx ((s.timesPressed.getD idx 0 + 1) % 65536) }

/-- The `mark_released` lambda of `update_buttons`. -/
def mark_released (idx : Nat) (s : MouseState) : MouseState :=
  { s with
    lastReleasedX := s.lastReleasedX.set idx (get_pos_x s)
    lastReleasedY := s.lastReleasedY.set idx (get_pos_y s)
    timesReleased := s.timesReleased.set idx ((s.timesReleased.getD idx 0 + 1) % 65536) }

/-- One of the three if/else-if blocks of `update_buttons`: `nd` is the new
state of the button, `od` its state in the static `buttons` mirror, which is
only reassigned after all three blocks. -/
def button_step (pressedMask releasedMask idx : Nat) (nd od : Bool)
    (p : Nat × MouseState) : Nat × MouseState :=
  if nd = true ∧ od = false then (Nat.lor p.1 pressedMask, mark_pressed idx p.2)
  else if nd = false ∧ od = true then
    (Nat.lor p.1 releasedMask, mark_released idx p.2)
  else p

/-- `update_buttons`: edge-detects each of the three buttons against the last
dispatched state and accumulates the event mask. -/
def update_buttons (nb : Buttons) (s : MouseState) : Nat × MouseState :=
  if s.buttons.data = nb.data then (0, s) else
  let p3 :=
    button_step 32 64 2 nb.middle s.buttons.middle
      (button_step 8 16 1 nb.right s.buttons.right
        (button_step 2 4 0 nb.left s.buttons.left (0, s)))
  (p3.1, { p3.2 with buttons := nb })

/-- `move_wheel`: folds the pending wheel movement into the 8-bit clamped
wheel counter, records the position, and reports `WheelHasMoved` (128) when
the counter is nonzero. -/
def move_wheel (s : MouseState) : Nat × MouseState :=
  let cw := clamp_to_int8 (s.counterW + s.pendingWRel)
  let s1 := { s with
    counterW := cw
    pendingWRel := 0
    lastWheelMovedX := get_pos_x s
    lastWheelMovedY := get_pos_y s }
  if cw ≠ 0 then (128, s1) else (0, s1)

/-- `update_wheel`. -/
def update_wheel (env : Env) (s : MouseState) : Nat × MouseState :=
  if env.dosImmediate then (128, s) else move_wheel s

/-- `has_pending_event`. -/
def hasPending (s : MouseState) : Bool :=
  s.pendingMoved || s.pendingButton || s.pendingWheel

/-- `maybe_start_delay_timer` (the PIC event itself is external; only the
flag effects are modelled). -/
def maybe_start_delay_timer (s : MouseState) : MouseState :=
  if s.delayRunning then s
  else { s with delayRunning := true, delayFinished := false }

/-- `maybe_trigger_event` (IRQ assertion is external; only the flag effects
are modelled). -/
def maybe_trigger_event (s : MouseState) : MouseState :=
  if s.delayFinished = false then maybe_start_delay_timer s
  else if hasPending s = false then s
  else maybe_start_delay_timer s

/-- `MOUSEDOS_NotifyMoved`. -/
def notifyMoved (env : Env) (xRel yRel : Rat) (xAbs yAbs : Nat)
    (s : MouseState) : MouseState :=
  let eventNeeded :=
    if s.useRelative then true
    else decide (s.pendingXAbs ≠ xAbs ∨ s.pendingYAbs ≠ yAbs)
  let s1 := { s with
    pendingXRel := MOUSE_ClampRelativeMovement (s.pendingXRel + xRel)
    pendingYRel := MOUSE_ClampRelativeMovement (s.pendingYRel + yRel)
    pendingXAbs := xAbs
    pendingYAbs := yAbs }
  if eventNeeded ∧ env.dosImmediate then
    let r := move_cursor env s1
    if r.1 ≠ 0 then maybe_trigger_event { r.2 with pendingMoved := true } else r.2
  else if eventNeeded then maybe_trigger_event { s1 with pendingMoved := true }
  else s1

/-- `MOUSEDOS_NotifyButton`. -/
def notifyButton (nb : Buttons) (s : MouseState) : MouseState :=
  maybe_trigger_event { s with pendingButton := true, pendingButtonState := nb }

/-- `MOUSEDOS_NotifyWheel`: a no-op unless the WheelAPI has been enabled. -/
def notifyWheel (env : Env) (w : Int) (s : MouseState) : MouseState :=
  if s.wheelApi = false then s
  else
    let s1 := { s with pendingWRel := clamp_to_int8 (s.pendingWRel + w) }
    if s1.pendingWRel ≠ 0 ∧ env.dosImmediate then
      let r := move_wheel s1
      if r.1 ≠ 0 then maybe_trigger_event { r.2 with pendingWheel := true } else r.2
    else if s1.pendingWRel ≠ 0 then
      maybe_trigger_event { s1 with pendingWheel := true }
    else s1

/-- `reset_hardware`: clears the wheel counter and disables the WheelAPI
(IRQ line and sampling-rate effects are external). -/
def reset_hardware (s : MouseState) : MouseState :=
  { s with counterW := 0, wheelApi := false }

/-- The gate at the top of `draw_cursor`, `restore_cursor_background` and
`restore_cursor_background_text`: drawing happens only when the hidden
counter is zero and drawing is not inhibited. -/
def draw_cursor_allowed (s : MouseState) : Bool :=
  !(decide (s.hidden ≠ 0) || s.inhibitDraw)

/-- INT 33h function 0x01 (show mouse cursor): decrement the hidden counter
with a floor of zero, move the update region offscreen, draw. -/
def int33_fn01 (s : MouseState) : MouseState :=
  let s1 := if s.hidden ≠ 0 then { s with hidden := s.hidden - 1 } else s
  { s1 with updateRegionY2 := -1 }

/-- INT 33h function 0x02 (hide mouse cursor): restore the background and
increment the 16-bit hidden counter. -/
def int33_fn02 (s : MouseState) : MouseState :=
  { s with hidden := (s.hidden + 1) % 65536 }

/-- INT 33h function 0x04 (position mouse cursor): overwrite an axis only
when the requested signed register value differs from the reported position,
then clamp into the guest range. -/
def int33_fn04 (cx dx : Nat) (s : MouseState) : MouseState :=
  let s1 := if toSigned16 cx ≠ (get_pos_x s : Int) then
      { s with absoluteX := (cx : Rat) } else s
  let s2 := if toSigned16 dx ≠ (get_pos_y s1 : Int) then
      { s1 with absoluteY := (dx : Rat) } else s1
  limit_coordinates s2

/-- `get_reset_wheel_16bit`: reading clears the wheel counter. -/
def get_reset_wheel_16bit (s : MouseState) : Nat × MouseState :=
  if s.wheelApi = false then (0, s)
  else (toUInt16Reg s.counterW, { s with counterW := 0 })

/-- INT 33h function 0x05 (get button press / wheel data).  Result is the
output register quadruple (AX, BX, CX, DX); AX keeps its input value in the
wheel branch. -/
def int33_fn05 (axIn bx : Nat) (s : MouseState) :
    (Nat × Nat × Nat × Nat) × MouseState :=
  if bx = 65535 ∧ s.wheelApi = true then
    let r := get_reset_wheel_16bit s
    ((axIn, r.1, r.2.lastWheelMovedX, r.2.lastWheelMovedY), r.2)
  else if bx < 3 then
    ((s.buttons.data, s.timesPressed.getD bx 0,
      s.lastPressedX.getD bx 0, s.lastPressedY.getD bx 0),
     { s with timesPressed := s.timesPressed.set bx 0 })
  else
    ((s.buttons.data, 0, 0, 0), s)

/-- INT 33h function 0x06 (get button release / wheel data). -/
def int33_fn06 (axIn bx : Nat) (s : MouseState) :
    (Nat × Nat × Nat × Nat) × MouseState :=
  if bx = 65535 ∧ s.wheelApi = true then
    let r := get_reset_wheel_16bit s
    ((axIn, r.1, r.2.lastWheelMovedX, r.2.lastWheelMovedY), r.2)
  else if bx < 3 then
    ((s.buttons.data, s.timesReleased.getD bx 0,
      s.lastReleasedX.getD bx 0, s.lastReleasedY.getD bx 0),
     { s with timesReleased := s.timesReleased.set bx 0 })
  else
    ((s.buttons.data, 0, 0, 0), s)

/-- INT 33h function 0x07 (define horizontal cursor range): takes the min and
max of the two signed register values and clamps the absolute x position. -/
def int33_fn07 (cx dx : Nat) (s : MouseState) : MouseState :=
  let mn := min (toSigned16 cx) (toSigned16 dx)
  let mx := max (toSigned16 cx) (toSigned16 dx)
  { s with
    minPosX := mn
    maxPosX := mx
    absoluteX := cppClamp s.absoluteX (mn : Int) (mx : Int) }

/-- INT 33h function 0x09 (define graphics cursor): the two 16-word blocks
read from guest memory at ES:DX are passed as `screenWords` (first block) and
`cursorWords` (second block).  The source stores `screen_mask_data` into BOTH
the user screen mask and the user cursor mask slots; the local
`cursor_mask_data` it just read is never used. -/
def int33_fn09 (bx cx : Nat) (screenWords cursorWords : List Nat)
    (s : MouseState) : MouseState :=
  { s with
    userScreenMaskData := screenWords
    userCursorMaskData := screenWords
    userScreenMask := true
    userCursorMask := true
    hotX := cppClamp (toSigned16 bx) (-16) 16
    hotY := cppClamp (toSigned16 cx) (-16) 16
    cursorType := MouseCursorType.Text }

/-- INT 33h function 0x11 (WheelAPI capability check): returns
(AX, BX, CX) = (0x574d, 0, 1), clears the wheel counter and enables the
WheelAPI as a side effect. -/
def int33_fn11 (s : MouseState) : (Nat × Nat × Nat) × MouseState :=
  ((0x574d, 0, 1), { s with counterW := 0, wheelApi := true })

/-- INT 33h function 0x15 (get driver storage space requirements): returns
`sizeof(state)` where `state` is the one-byte placeholder struct. -/
def int33_fn15 : Nat := 1

/-- INT 33h function 0x16 (save driver state): `MEM_BlockWrite` of the
placeholder struct `state` (a single byte) into the guest buffer; the
guest-resident driver state itself is not written.  Returns the bytes
written. -/
def int33_fn16 (s : MouseState) : List Nat × MouseState :=
  ([s.dummyXxx], s)

/-- INT 33h function 0x17 (load driver state): `MEM_BlockRead` of the
placeholder struct `state` (a single byte) from the guest buffer, then
clears pending movement and recomputes the sensitivity coefficients from the
CURRENT raw sensitivity bytes. -/
def int33_fn17 (buf : List Nat) (s : MouseState) : MouseState :=
  let s1 := { s with
    dummyXxx := buf.headD 0
    pendingXRel := 0
    pendingYRel := 0
    pendingWRel := 0 }
  set_sensitivity s1.sensitivityX s1.sensitivityY s1.unknown01 s1

/-- INT 33h function 0x1a (set mouse sensitivity). -/
def int33_fn1a (bx cx dx : Nat) (s : MouseState) : MouseState :=
  set_sensitivity bx cx dx s

/-- The `pending_moved` block of `MOUSEDOS_DoInterrupt`: resolves the motion,
clears the flag (the cursor redraw has no effect on the modelled fields). -/
def stage_moved (env : Env) (s : MouseState) : Nat × MouseState :=
  if s.pendingMoved then
    let r := update_moved env s
    (r.1, { r.2 with pendingMoved := false })
  else (0, s)

/-- The `pending_button` block of `MOUSEDOS_DoInterrupt`. -/
def stage_button (q : Nat × MouseState) : Nat × MouseState :=
  if q.2.pendingButton then
    let r := update_buttons q.2.pendingButtonState q.2
    (Nat.lor q.1 r.1, { r.2 with pendingButton := false })
  else q

/-- The `pending_wheel` block of `MOUSEDOS_DoInterrupt`. -/
def stage_wheel (env : Env) (q : Nat × MouseState) : Nat × MouseState :=
  if q.2.pendingWheel then
    let r := update_wheel env q.2
    (Nat.lor q.1 r.1, { r.2 with pendingWheel := false })
  else q

/-- The three per-category blocks of `MOUSEDOS_DoInterrupt` in their fixed
order: moved, then button, then wheel, OR-accumulating the event mask and
consuming each pending flag. -/
def doInterruptStages (env : Env) (s : MouseState) : Nat × MouseState :=
  stage_wheel env (stage_button (stage_moved env s))

/-- `MOUSEDOS_DoInterrupt`: returns 0 with no pending event; otherwise runs
the stages and suppresses the interrupt (returns 0) when the guest's
registered callback mask has no bit in common with the accumulated mask. -/
def doInterrupt (env : Env) (s : MouseState) : Nat × MouseState :=
  if hasPending s = false then (0, s)
  else
    let q := doInterruptStages env s
    if Nat.land q.2.userCallbackMask q.1 = 0 then (0, q.2) else q

/-- A concrete baseline state, with the calibration values established by
`reset_driver` (`set_mickey_pixel_rate(8, 16)`) and startup sensitivity 50
(coefficient 49 * 49 / 3600 + 1/3 = 3601/3600). -/
def testState : MouseState := {
  mickeysPerPixelX := 1
  mickeysPerPixelY := 2
  pixelsPerMickeyX := 1
  pixelsPerMickeyY := 1/2
  sensitivityCoeffX := 3601/3600
  sensitivityCoeffY := 3601/3600
  absoluteX := 320
  absoluteY := 100
  mickeyCounterX := 0
  mickeyCounterY := 0
  timesPressed := [0, 0, 0]
  timesReleased := [0, 0, 0]
  lastPressedX := [0, 0, 0]
  lastPressedY := [0, 0, 0]
  lastReleasedX := [0, 0, 0]
  lastReleasedY := [0, 0, 0]
  lastWheelMovedX := 0
  lastWheelMovedY := 0
  wheelApi := false
  granularityX := 65535
  granularityY := 65535
  sensitivityX := 50
  sensitivityY := 50
  unknown01 := 50
  minPosX := 0
  maxPosX := 639
  minPosY := 0
  maxPosY := 199
  hidden := 0
  updateRegionY2 := -1
  inhibitDraw := false
  hotX := 0
  hotY := 0
  cursorType := MouseCursorType.Software
  userScreenMask := false
  userCursorMask := false
  userScreenMaskData := List.replicate 16 0
  userCursorMaskData := List.replicate 16 0
  userCallbackMask := 0
  dummyXxx := 0
  pendingMoved := false
  pendingButton := false
  pendingWheel := false
  pendingButtonState := ⟨false, false, false⟩
  buttons := ⟨false, false, false⟩
  counterW := 0
  useRelative := true
  isInputRaw := true
  pendingXRel := 0
  pendingYRel := 0
  pendingXAbs := 0
  pendingYAbs := 0
  pendingWRel := 0
  delayRunning := false
  delayFinished := true }

/-- A concrete environment: deferred (non-immediate) event handling, a
640x480 graphics mode host. -/
def testEnv : Env := {
  dosImmediate := false
  isTextMode := false
  textColumns := 80
  textRows := 25
  resolutionX := 640
  resolutionY := 480 }

/-- The driver operations modelled in this development, as a command
alphabet for reasoning about sequences of calls within one driver session. -/
inductive Cmd where
  | notifyMoved (xr yr : Rat) (xa ya : Nat)
  | notifyButton (b : Buttons)
  | notifyWheel (w : Int)
  | interrupt
  | fn01
  | fn02
  | fn04 (cx dx : Nat)
  | fn05 (ax bx : Nat)
  | fn06 (ax bx : Nat)
  | fn07 (cx dx : Nat)
  | fn09 (bx cx : Nat) (w1 w2 : List Nat)
  | fn11
  | fn16
  | fn17 (buf : List Nat)
  | fn1a (bx cx dx : Nat)
  | resetHardware
deriving DecidableEq

/-- One command applied to the driver state. -/
def step (env : Env) (s : MouseState) : Cmd → MouseState
  | Cmd.notifyMoved xr yr xa ya => notifyMoved env xr yr xa ya s
  | Cmd.notifyButton b => notifyButton b s
  | Cmd.notifyWheel w => notifyWheel env w s
  | Cmd.interrupt => (doInterrupt env s).2
  | Cmd.fn01 => int33_fn01 s
  | Cmd.fn02 => int33_fn02 s
  | Cmd.fn04 cx dx => int33_fn04 cx dx s
  | Cmd.fn05 ax bx => (int33_fn05 ax bx s).2
  | Cmd.fn06 ax bx => (int33_fn06 ax bx s).2
  | Cmd.fn07 cx dx => int33_fn07 cx dx s
  | Cmd.fn09 bx cx w1 w2 => int33_fn09 bx cx w1 w2 s
  | Cmd.fn11 => (int33_fn11 s).2
  | Cmd.fn16 => (int33_fn16 s).2
  | Cmd.fn17 buf => int33_fn17 buf s
  | Cmd.fn1a bx cx dx => int33_fn1a bx cx dx s
  | Cmd.resetHardware => reset_hardware s

/-- A sequence of commands applied in order. -/
def run (env : Env) (cmds : List Cmd) (s : MouseState) : MouseState :=
  cmds.foldl (step env) s

/-- A concrete state for exercising the interrupt gating: a pending
button-press event while the guest callback mask only requests motion
events (bit 0). -/
def c4state : MouseState :=
  { testState with
    pendingButton := true
    pendingButtonState := ⟨true, false, false⟩
    userCallbackMask := 1 }

/-- Claim C5: for every motion update of a mickey counter, whenever the
updated value would exceed 32767.5 or go below -32768.5 it is corrected by
exactly -65536 respectively +65536, and otherwise kept exactly; it is never
clamped or saturated. -/
theorem c5_mickey_wrap (mickey d mpp : Rat) :
    (mickey + d * mpp > 32767.5 →
      update_mickey mickey d mpp = mickey + d * mpp - 65536)
    ∧ (mickey + d * mpp < -32768.5 →
      update_mickey mickey d mpp = mickey + d * mpp + 65536)
    ∧ (-32768.5 ≤ mickey + d * mpp → mickey + d * mpp ≤ 32767.5 →
      update_mickey mickey d mpp = mickey + d * mpp) := by
  refine ⟨?_, ?_, ?_⟩
  · intro h
    have hpos : ¬(mickey + d * mpp < 0) := by
      intro hneg
      have : (0 : Rat) < 32767.5 := by norm_num
      linarith
    simp only [update_mickey, copysignQ]
    rw [if_pos (Or.inl h), if_neg hpos]
  · intro h
    have hneg : mickey + d * mpp < 0 := by
      have : (-32768.5 : Rat) < 0 := by norm_num
      linarith
    simp only [update_mickey, copysignQ]
    rw [if_pos (Or.inr h), if_pos hneg]
    ring
  · intro h1 h2
    simp only [update_mickey]
    rw [if_neg]
    push_neg
    exact ⟨h2, h1⟩

/-- Claim C5 witness: a concrete over-range update wraps by exactly 65536. -/
theorem c5_mickey_wrap_witness :
    ((32000 : Rat) + 1000 * 1 > 32767.5) ∧
    update_mickey 32000 1000 1 = 32000 + 1000 * 1 - 65536 :=
  ⟨by norm_num, (c5_mickey_wrap 32000 1000 1).1 (by norm_num)⟩

/-- Claim C6: INT 33h function 0x07 is symmetric in its two register
arguments — swapping CX and DX yields the identical driver state — and the
resulting state has min-pos-x the signed minimum, max-pos-x the signed
maximum, and the absolute x position clamped into that range. -/
theorem c6_range_order_independent (a b : Nat) (s : MouseState) :
    int33_fn07 a b s = int33_fn07 b a s
    ∧ (int33_fn07 a b s).minPosX = min (toSigned16 a) (toSigned16 b)
    ∧ (int33_fn07 a b s).maxPosX = max (toSigned16 a) (toSigned16 b)
    ∧ (int33_fn07 a b s).absoluteX =
        cppClamp s.absoluteX ((min (toSigned16 a) (toSigned16 b) : Int) : Rat)
          ((max (toSigned16 a) (toSigned16 b) : Int) : Rat) := by
  refine ⟨?_, rfl, rfl, rfl⟩
  simp only [int33_fn07]
  rw [min_comm (toSigned16 a) (toSigned16 b), max_comm (toSigned16 a) (toSigned16 b)]

lemma calculate_d_coeff_zero (rel ppm : Rat) (raw : Bool) :
    calculate_d rel ppm 0 raw = 0 := by
  simp only [calculate_d]
  rw [if_pos (Or.inr (Or.inr (by norm_num)))]
  ring

lemma cppClamp_of_le {α : Type} [LinearOrder α] {v lo hi : α}
    (h1 : lo ≤ v) (h2 : v ≤ hi) : cppClamp v lo hi = v := by
  unfold cppClamp
  rw [if_neg (not_lt.mpr h1), if_neg (not_lt.mpr h2)]

lemma snd_ite {c : Prop} [Decidable c] (a b : Nat) (x : MouseState) :
    (if c then (a, x) else (b, x)).2 = x := by
  split <;> rfl

/-- Claim C8: sensitivity 0 stores a sensitivity coefficient of exactly 0
(while 1..100 yields `((v-1)^2)/3600 + 1/3`), and a zero x coefficient makes
every relative x motion in captured mode leave the absolute x position
unchanged, whatever the input delta. -/
theorem c8_sensitivity_zero (sy su : Nat) (s : MouseState) :
    (set_sensitivity 0 sy su s).sensitivityCoeffX = 0
    ∧ (∀ v : Nat, 1 ≤ v → v ≤ 100 →
        (set_sensitivity v sy su s).sensitivityCoeffX =
          ((v : Rat) - 1) * ((v : Rat) - 1) / 3600 + 1/3)
    ∧ (∀ (env : Env) (t : MouseState), t.sensitivityCoeffX = 0 →
        t.useRelative = true →
        (t.minPosX : Rat) ≤ t.absoluteX → t.absoluteX ≤ (t.maxPosX : Rat) →
        (move_cursor env t).2.absoluteX = t.absoluteX) := by
  refine ⟨rfl, ?_, ?_⟩
  · intro v h1 h100
    have hmin : min 100 v = v := min_eq_right h100
    have hv : v ≠ 0 := by omega
    simp only [set_sensitivity, calculate_coeff, hmin, if_neg hv]
  · intro env t hc hrel hlo hhi
    simp only [move_cursor, hrel, if_true, snd_ite, limit_coordinates,
      move_cursor_captured, update_mickeys_on_move, hc, calculate_d_coeff_zero,
      add_zero]
    exact cppClamp_of_le hlo hhi

/-- Claim C8 witness: concrete instances of all three parts. -/
theorem c8_sensitivity_zero_witness :
    (set_sensitivity 0 50 50 testState).sensitivityCoeffX = 0
    ∧ (set_sensitivity 50 50 50 testState).sensitivityCoeffX = 3601/3600
    ∧ (move_cursor testEnv
        { testState with sensitivityCoeffX := 0, pendingXRel := 1000 }).2.absoluteX
      = 320 := by
  obtain ⟨h0, hmid, hmove⟩ := c8_sensitivity_zero 50 50 testState
  refine ⟨h0, ?_, ?_⟩
  · rw [hmid 50 (by norm_num) (by norm_num)]
    norm_num
  · have := hmove testEnv
      { testState with sensitivityCoeffX := 0, pendingXRel := 1000 }
      rfl rfl (by norm_num [testState]) (by norm_num [testState])
    simpa [testState] using this

lemma hidden_after_hides (m : Nat) (s : MouseState) (h : s.hidden < 65536) :
    ((int33_fn02^[m]) s).hidden = (s.hidden + m) % 65536 := by
  induction m with
  | zero => simpa using (Nat.mod_eq_of_lt h).symm
  | succ n ih =>
    rw [Function.iterate_succ_apply']
    simp only [int33_fn02, ih]
    omega

lemma hidden_after_shows (n : Nat) (s : MouseState) :
    ((int33_fn01^[n]) s).hidden = s.hidden - n := by
  induction n with
  | zero => simp
  | succ k ih =>
    rw [Function.iterate_succ_apply']
    simp only [int33_fn01]
    split
    case isTrue h => simp only [ih]; omega
    case isFalse h =>
      simp only [ih] at h ⊢
      omega

/-- Claim C3 counterexample: from a visible cursor, 65536 hides followed by 0
shows leave the 16-bit hidden counter wrapped back to 0 (cursor visible) even
though 0 < 65536, so the unrestricted "visible iff N ≥ M" fails. -/
theorem c3_counterexample :
    testState.hidden = 0
    ∧ ((int33_fn01^[0]) ((int33_fn02^[65536]) testState)).hidden = 0
    ∧ ¬(65536 ≤ (0 : Nat)) := by
  refine ⟨rfl, ?_, by omega⟩
  rw [Function.iterate_zero_apply, hidden_after_hides 65536 testState (by decide)]
  decide

/-- Claim C3 (amended: the hide counter is a 16-bit word, so the count of
hides M must stay below 65536): hide increments the counter, show decrements
it saturating at zero, and from a visible cursor M hides followed by N shows
leave the cursor visible (counter zero) iff N ≥ M; any state with a nonzero
counter never draws the cursor. -/
theorem c3_hidden_counter (s : MouseState) (N M : Nat)
    (h0 : s.hidden = 0) (hM : M < 65536) :
    (((int33_fn01^[N]) ((int33_fn02^[M]) s)).hidden = 0 ↔ M ≤ N)
    ∧ (∀ t : MouseState, t.hidden ≠ 0 → draw_cursor_allowed t = false) := by
  constructor
  · rw [hidden_after_shows, hidden_after_hides M s (by omega), h0]
    have : (0 + M) % 65536 = M := by omega
    rw [this]
    omega
  · intro t ht
    simp [draw_cursor_allowed, ht]

/-- Claim C3 witness: 3 hides then 2 shows leave the counter at 1 (hidden);
3 hides then 3 shows leave it at 0 (visible). -/
theorem c3_hidden_counter_witness :
    testState.hidden = 0
    ∧ ¬(((int33_fn01^[2]) ((int33_fn02^[3]) testState)).hidden = 0)
    ∧ (((int33_fn01^[3]) ((int33_fn02^[3]) testState)).hidden = 0) := by
  have h2 := (c3_hidden_counter testState 2 3 rfl (by norm_num)).1
  have h3 := (c3_hidden_counter testState 3 3 rfl (by norm_num)).1
  refine ⟨rfl, ?_, h3.mpr (by omega)⟩
  intro h
  exact absurd (h2.mp h) (by omega)

/-- Claim C9: INT 33h functions 0x05 and 0x06 called with a button index that
is neither a valid button (0, 1, 2) nor the wheel sentinel 0xffff with the
WheelAPI active return the sentinel quadruple (AX = current button bitmask,
BX = CX = DX = 0) and leave the entire state unchanged. -/
theorem c9_invalid_button_sentinel (axIn bx : Nat) (s : MouseState)
    (h1 : ¬(bx = 65535 ∧ s.wheelApi = true)) (h2 : ¬(bx < 3)) :
    int33_fn05 axIn bx s = ((s.buttons.data, 0, 0, 0), s)
    ∧ int33_fn06 axIn bx s = ((s.buttons.data, 0, 0, 0), s) := by
  constructor
  · simp only [int33_fn05]
    rw [if_neg h1, if_neg h2]
  · simp only [int33_fn06]
    rw [if_neg h1, if_neg h2]

/-- Claim C9 witness: button index 7 (with the WheelAPI disabled) hits the
sentinel branch of both functions. -/
theorem c9_invalid_button_sentinel_witness :
    int33_fn05 5 7 testState = ((0, 0, 0, 0), testState)
    ∧ int33_fn06 6 7 testState = ((0, 0, 0, 0), testState) := by
  obtain ⟨h5, _⟩ := c9_invalid_button_sentinel 5 7 testState (by decide) (by decide)
  obtain ⟨_, h6⟩ := c9_invalid_button_sentinel 6 7 testState (by decide) (by decide)
  exact ⟨by rw [h5]; rfl, by rw [h6]; rfl⟩

/-- Claim C10: INT 33h function 0x04 overwrites an axis's absolute position
with the requested register value only when that value (signed) differs from
the granularity-masked reported position of that axis; when they are equal
the stored sub-pixel absolute position is kept; in either case the result is
clamped to the current min/max range. -/
theorem c10_position_cursor (cx dx : Nat) (s : MouseState)
    (hcx : cx < 65536) (hdx : dx < 65536) :
    (toSigned16 cx = (get_pos_x s : Int) →
      (int33_fn04 cx dx s).absoluteX =
        cppClamp s.absoluteX ((s.minPosX : Int) : Rat) ((s.maxPosX : Int) : Rat))
    ∧ (toSigned16 cx ≠ (get_pos_x s : Int) →
      (int33_fn04 cx dx s).absoluteX =
        cppClamp (cx : Rat) ((s.minPosX : Int) : Rat) ((s.maxPosX : Int) : Rat))
    ∧ (toSigned16 dx = (get_pos_y s : Int) →
      (int33_fn04 cx dx s).absoluteY =
        cppClamp s.absoluteY ((s.minPosY : Int) : Rat) ((s.maxPosY : Int) : Rat))
    ∧ (toSigned16 dx ≠ (get_pos_y s : Int) →
      (int33_fn04 cx dx s).absoluteY =
        cppClamp (dx : Rat) ((s.minPosY : Int) : Rat) ((s.maxPosY : Int) : Rat)) := by
  have hy : ∀ v : Rat, get_pos_y { s with absoluteX := v } = get_pos_y s :=
    fun _ => rfl
  refine ⟨?_, ?_, ?_, ?_⟩ <;> intro h
  · simp only [int33_fn04, if_neg (not_not_intro h)]
    by_cases h2 : toSigned16 dx ≠ (get_pos_y s : Int)
    · simp only [if_pos h2, limit_coordinates]
    · simp only [if_neg h2, limit_coordinates]
  · simp only [int33_fn04, if_pos h]
    by_cases h2 : toSigned16 dx ≠
        (get_pos_y { s with absoluteX := (cx : Rat) } : Int)
    · simp only [if_pos h2, limit_coordinates]
    · simp only [if_neg h2, limit_coordinates]
  · simp only [int33_fn04]
    by_cases h1 : toSigned16 cx ≠ (get_pos_x s : Int)
    · simp only [if_pos h1, hy, if_neg (not_not_intro h), limit_coordinates]
    · simp only [if_neg h1, if_neg (not_not_intro h), limit_coordinates]
  · simp only [int33_fn04]
    by_cases h1 : toSigned16 cx ≠ (get_pos_x s : Int)
    · simp only [if_pos h1, hy, if_pos h, limit_coordinates]
    · simp only [if_neg h1, if_pos h, limit_coordinates]

lemma get_pos_x_testState : get_pos_x testState = 320 := by
  unfold get_pos_x
  show Nat.land (toUInt16Reg (lroundQ (320 : Rat))) 65535 = 320
  have h1 : lroundQ (320 : Rat) = 320 := by
    unfold lroundQ
    rw [if_neg (by norm_num)]
    norm_num
  rw [h1]
  decide

/-- Claim C10 witness: at reported position 320 (granularity 0xffff),
requesting CX = 320 keeps the stored position, requesting CX = 100 overwrites
it; both results get clamped (here: identity, since in range). -/
theorem c10_position_cursor_witness :
    (toSigned16 320 = (get_pos_x testState : Int))
    ∧ (int33_fn04 320 100 testState).absoluteX = 320
    ∧ (toSigned16 100 ≠ (get_pos_x testState : Int))
    ∧ (int33_fn04 100 100 testState).absoluteX = 100 := by
  have hx := get_pos_x_testState
  obtain ⟨heq, _, _, _⟩ := c10_position_cursor 320 100 testState
    (by norm_num) (by norm_num)
  obtain ⟨_, hne, _, _⟩ := c10_position_cursor 100 100 testState
    (by norm_num) (by norm_num)
  have e1 : toSigned16 320 = (get_pos_x testState : Int) := by rw [hx]; decide
  have e2 : toSigned16 100 ≠ (get_pos_x testState : Int) := by rw [hx]; decide
  refine ⟨e1, ?_, e2, ?_⟩
  · rw [heq e1]
    norm_num [cppClamp, testState]
  · rw [hne e2]
    norm_num [cppClamp, testState]

/-- Claim C2 (code evaluated at the failing input): function 0x09 stores the
FIRST 16 guest words as both the user screen mask and the user cursor mask;
the second 16 words are read but discarded, so for a buffer whose two halves
differ the stored cursor mask is not the second half. -/
theorem c2_cursor_mask_bug :
    (int33_fn09 0 0 (List.replicate 16 1) (List.replicate 16 2)
        testState).userCursorMaskData = List.replicate 16 1
    ∧ (List.replicate 16 1 : List Nat) ≠ List.replicate 16 2
    ∧ (int33_fn09 0 0 (List.replicate 16 1) (List.replicate 16 2)
        testState).userScreenMask = true
    ∧ (int33_fn09 0 0 (List.replicate 16 1) (List.replicate 16 2)
        testState).userCursorMask = true
    ∧ (int33_fn09 20 70000 (List.replicate 16 1) (List.replicate 16 2)
        testState).hotX = 16
    ∧ (int33_fn09 20 70000 (List.replicate 16 1) (List.replicate 16 2)
        testState).hotY = cppClamp (toSigned16 70000) (-16) 16
    ∧ (int33_fn09 0 0 (List.replicate 16 1) (List.replicate 16 2)
        testState).cursorType = MouseCursorType.Text := by
  refine ⟨rfl, by decide, rfl, rfl, by decide, rfl, rfl⟩

/-- Claim C1 (code evaluated at the failing input): saving via 0x16, mutating
the sensitivity via 0x1a, then loading via 0x17 does NOT restore the driver
state — functions 0x16/0x17 only transfer the one-byte placeholder struct, so
the sensitivity byte keeps its mutated value 10 instead of the saved 50, and
the coefficient is recomputed from the mutated byte. -/
theorem c1_save_load_bug :
    testState.sensitivityX = 50
    ∧ (int33_fn17 (int33_fn16 testState).1
        (int33_fn1a 10 10 10 testState)).sensitivityX = 10
    ∧ (int33_fn17 (int33_fn16 testState).1
        (int33_fn1a 10 10 10 testState)).sensitivityX ≠ testState.sensitivityX
    ∧ (int33_fn17 (int33_fn16 testState).1
        (int33_fn1a 10 10 10 testState)).sensitivityCoeffX = calculate_coeff 10
    ∧ int33_fn15 = 1 := by
  refine ⟨rfl, rfl, by decide, rfl, rfl⟩

lemma move_cursor_frame (env : Env) (s : MouseState) :
    (move_cursor env s).2.pendingMoved = s.pendingMoved
    ∧ (move_cursor env s).2.pendingButton = s.pendingButton
    ∧ (move_cursor env s).2.pendingWheel = s.pendingWheel
    ∧ (move_cursor env s).2.wheelApi = s.wheelApi := by
  refine ⟨?_, ?_, ?_, ?_⟩ <;>
    (simp only [move_cursor]; rw [snd_ite]; split <;> rfl)

lemma update_moved_frame (env : Env) (s : MouseState) :
    (update_moved env s).2.pendingMoved = s.pendingMoved
    ∧ (update_moved env s).2.pendingButton = s.pendingButton
    ∧ (update_moved env s).2.pendingWheel = s.pendingWheel
    ∧ (update_moved env s).2.wheelApi = s.wheelApi := by
  by_cases h : env.dosImmediate = true
  · refine ⟨?_, ?_, ?_, ?_⟩ <;> simp only [update_moved, h, if_true]
  · obtain ⟨hm, hb, hw, ha⟩ := move_cursor_frame env s
    have hf : env.dosImmediate = false := by simpa using h
    refine ⟨?_, ?_, ?_, ?_⟩ <;>
      simp only [update_moved, hf, Bool.false_eq_true, if_false]
    exacts [hm, hb, hw, ha]

lemma button_step_frame (pm rm idx : Nat) (nd od : Bool) (p : Nat × MouseState) :
    (button_step pm rm idx nd od p).2.pendingMoved = p.2.pendingMoved
    ∧ (button_step pm rm idx nd od p).2.pendingButton = p.2.pendingButton
    ∧ (button_step pm rm idx nd od p).2.pendingWheel = p.2.pendingWheel
    ∧ (button_step pm rm idx nd od p).2.wheelApi = p.2.wheelApi := by
  by_cases h1 : nd = true ∧ od = false
  · refine ⟨?_, ?_, ?_, ?_⟩ <;> simp only [button_step, if_pos h1] <;> rfl
  · by_cases h2 : nd = false ∧ od = true
    · refine ⟨?_, ?_, ?_, ?_⟩ <;>
        simp only [button_step, if_neg h1, if_pos h2] <;> rfl
    · refine ⟨?_, ?_, ?_, ?_⟩ <;>
        simp only [button_step, if_neg h1, if_neg h2]

lemma update_buttons_frame (nb : Buttons) (s : MouseState) :
    (update_buttons nb s).2.pendingMoved = s.pendingMoved
    ∧ (update_buttons nb s).2.pendingButton = s.pendingButton
    ∧ (update_buttons nb s).2.pendingWheel = s.pendingWheel
    ∧ (update_buttons nb s).2.wheelApi = s.wheelApi := by
  by_cases h : s.buttons.data = nb.data
  · refine ⟨?_, ?_, ?_, ?_⟩ <;> simp only [update_buttons, if_pos h]
  · obtain ⟨a1, b1, c1, d1⟩ :=
      button_step_frame 2 4 0 nb.left s.buttons.left (0, s)
    obtain ⟨a2, b2, c2, d2⟩ :=
      button_step_frame 8 16 1 nb.right s.buttons.right
        (button_step 2 4 0 nb.left s.buttons.left (0, s))
    obtain ⟨a3, b3, c3, d3⟩ :=
      button_step_frame 32 64 2 nb.middle s.buttons.middle
        (button_step 8 16 1 nb.right s.buttons.right
          (button_step 2 4 0 nb.left s.buttons.left (0, s)))
    refine ⟨?_, ?_, ?_, ?_⟩ <;> simp only [update_buttons, if_neg h]
    · simp only [a3, a2, a1]
    · simp only [b3, b2, b1]
    · simp only [c3, c2, c1]
    · simp only [d3, d2, d1]

lemma move_wheel_frame (s : MouseState) :
    (move_wheel s).2.pendingMoved = s.pendingMoved
    ∧ (move_wheel s).2.pendingButton = s.pendingButton
    ∧ (move_wheel s).2.pendingWheel = s.pendingWheel
    ∧ (move_wheel s).2.wheelApi = s.wheelApi := by
  refine ⟨?_, ?_, ?_, ?_⟩ <;> (simp only [move_wheel]; rw [snd_ite])

lemma update_wheel_frame (env : Env) (s : MouseState) :
    (update_wheel env s).2.pendingMoved = s.pendingMoved
    ∧ (update_wheel env s).2.pendingButton = s.pendingButton
    ∧ (update_wheel env s).2.pendingWheel = s.pendingWheel
    ∧ (update_wheel env s).2.wheelApi = s.wheelApi := by
  by_cases h : env.dosImmediate = true
  · refine ⟨?_, ?_, ?_, ?_⟩ <;> simp only [update_wheel, h, if_true]
  · obtain ⟨hm, hb, hw, ha⟩ := move_wheel_frame s
    have hf : env.dosImmediate = false := by simpa using h
    refine ⟨?_, ?_, ?_, ?_⟩ <;>
      simp only [update_wheel, hf, Bool.false_eq_true, if_false]
    exacts [hm, hb, hw, ha]

lemma stage_moved_flags (env : Env) (s : MouseState) :
    (stage_moved env s).2.pendingMoved = false
    ∧ (stage_moved env s).2.pendingButton = s.pendingButton
    ∧ (stage_moved env s).2.pendingWheel = s.pendingWheel
    ∧ (stage_moved env s).2.wheelApi = s.wheelApi := by
  obtain ⟨hm, hb, hw, ha⟩ := update_moved_frame env s
  by_cases h : s.pendingMoved = true
  · refine ⟨?_, ?_, ?_, ?_⟩
    · simp only [stage_moved, h, if_true]
    · simpa only [stage_moved, h, if_true] using hb
    · simpa only [stage_moved, h, if_true] using hw
    · simpa only [stage_moved, h, if_true] using ha
  · have hf : s.pendingMoved = false := by simpa using h
    refine ⟨?_, ?_, ?_, ?_⟩ <;>
      simp only [stage_moved, hf, Bool.false_eq_true, if_false]

lemma stage_button_flags (q : Nat × MouseState) :
    (stage_button q).2.pendingMoved = q.2.pendingMoved
    ∧ (stage_button q).2.pendingButton = false
    ∧ (stage_button q).2.pendingWheel = q.2.pendingWheel
    ∧ (stage_button q).2.wheelApi = q.2.wheelApi := by
  obtain ⟨hm, hb, hw, ha⟩ := update_buttons_frame q.2.pendingButtonState q.2
  by_cases h : q.2.pendingButton = true
  · refine ⟨?_, ?_, ?_, ?_⟩
    · simpa only [stage_button, h, if_true] using hm
    · simp only [stage_button, h, if_true]
    · simpa only [stage_button, h, if_true] using hw
    · simpa only [stage_button, h, if_true] using ha
  · have hf : q.2.pendingButton = false := by simpa using h
    refine ⟨?_, ?_, ?_, ?_⟩ <;>
      simp only [stage_button, hf, Bool.false_eq_true, if_false]

lemma stage_wheel_flags (env : Env) (q : Nat × MouseState) :
    (stage_wheel env q).2.pendingMoved = q.2.pendingMoved
    ∧ (stage_wheel env q).2.pendingButton = q.2.pendingButton
    ∧ (stage_wheel env q).2.pendingWheel = false
    ∧ (stage_wheel env q).2.wheelApi = q.2.wheelApi := by
  obtain ⟨hm, hb, hw, ha⟩ := update_wheel_frame env q.2
  by_cases h : q.2.pendingWheel = true
  · refine ⟨?_, ?_, ?_, ?_⟩
    · simpa only [stage_wheel, h, if_true] using hm
    · simpa only [stage_wheel, h, if_true] using hb
    · simp only [stage_wheel, h, if_true]
    · simpa only [stage_wheel, h, if_true] using ha
  · have hf : q.2.pendingWheel = false := by simpa using h
    refine ⟨?_, ?_, ?_, ?_⟩ <;>
      simp only [stage_wheel, hf, Bool.false_eq_true, if_false]

lemma doInterruptStages_flags (env : Env) (s : MouseState) :
    (doInterruptStages env s).2.pendingMoved = false
    ∧ (doInterruptStages env s).2.pendingButton = false
    ∧ (doInterruptStages env s).2.pendingWheel = false := by
  obtain ⟨m1, _, _, _⟩ := stage_moved_flags env s
  obtain ⟨m2, b2, _, _⟩ := stage_button_flags (stage_moved env s)
  obtain ⟨m3, b3, w3, _⟩ :=
    stage_wheel_flags env (stage_button (stage_moved env s))
  refine ⟨?_, ?_, ?_⟩
  · rw [doInterruptStages, m3, m2, m1]
  · rw [doInterruptStages, b3, b2]
  · rw [doInterruptStages, w3]

/-- Claim C4: with at least one pending event, `MOUSEDOS_DoInterrupt` runs the
fixed moved/button/wheel stage order and, when the guest's registered
callback mask has no bit in common with the accumulated event mask, returns 0
while the pending flags have nevertheless all been consumed. -/
theorem c4_interrupt_mask_gating (env : Env) (s : MouseState)
    (hpend : hasPending s = true)
    (hmask : Nat.land (doInterruptStages env s).2.userCallbackMask
      (doInterruptStages env s).1 = 0) :
    doInterrupt env s = (0, (doInterruptStages env s).2)
    ∧ (doInterruptStages env s).2.pendingMoved = false
    ∧ (doInterruptStages env s).2.pendingButton = false
    ∧ (doInterruptStages env s).2.pendingWheel = false := by
  obtain ⟨hm, hb, hw⟩ := doInterruptStages_flags env s
  refine ⟨?_, hm, hb, hw⟩
  simp only [doInterrupt, hpend, Bool.true_eq_false, if_false, hmask, if_pos]

/-- Claim C4 witness: the pending button press accumulates mask 2
(PressedLeft), disjoint from callback mask 1 (MouseHasMoved), so the
interrupt returns 0. -/
theorem c4_interrupt_mask_gating_witness :
    hasPending c4state = true
    ∧ Nat.land (doInterruptStages testEnv c4state).2.userCallbackMask
        (doInterruptStages testEnv c4state).1 = 0
    ∧ (doInterrupt testEnv c4state).1 = 0 := by
  have h1 : hasPending c4state = true := rfl
  have h2 : Nat.land (doInterruptStages testEnv c4state).2.userCallbackMask
      (doInterruptStages testEnv c4state).1 = 0 := by decide
  obtain ⟨he, _, _, _⟩ := c4_interrupt_mask_gating testEnv c4state h1 h2
  exact ⟨h1, h2, by rw [he]⟩

lemma wheelApi_maybe_start (s : MouseState) :
    (maybe_start_delay_timer s).wheelApi = s.wheelApi := by
  unfold maybe_start_delay_timer
  split <;> rfl

lemma wheelApi_maybe_trigger (s : MouseState) :
    (maybe_trigger_event s).wheelApi = s.wheelApi := by
  unfold maybe_trigger_event
  split
  · exact wheelApi_maybe_start s
  · split
    · rfl
    · exact wheelApi_maybe_start s

lemma wheelApi_move_cursor (env : Env) (s : MouseState) :
    (move_cursor env s).2.wheelApi = s.wheelApi :=
  (move_cursor_frame env s).2.2.2

lemma wheelApi_move_wheel (s : MouseState) :
    (move_wheel s).2.wheelApi = s.wheelApi :=
  (move_wheel_frame s).2.2.2

lemma wheelApi_notifyMoved (env : Env) (xr yr : Rat) (xa ya : Nat)
    (s : MouseState) :
    (notifyMoved env xr yr xa ya s).wheelApi = s.wheelApi := by
  simp only [notifyMoved]
  split_ifs <;> simp [wheelApi_maybe_trigger, wheelApi_move_cursor]

lemma wheelApi_notifyButton (b : Buttons) (s : MouseState) :
    (notifyButton b s).wheelApi = s.wheelApi := by
  unfold notifyButton
  simp only [wheelApi_maybe_trigger]

lemma wheelApi_notifyWheel (env : Env) (w : Int) (s : MouseState) :
    (notifyWheel env w s).wheelApi = s.wheelApi := by
  simp only [notifyWheel]
  split_ifs <;> simp [wheelApi_maybe_trigger, wheelApi_move_wheel]

lemma wheelApi_doInterrupt (env : Env) (s : MouseState) :
    (doInterrupt env s).2.wheelApi = s.wheelApi := by
  obtain ⟨_, _, _, a1⟩ := stage_moved_flags env s
  obtain ⟨_, _, _, a2⟩ := stage_button_flags (stage_moved env s)
  obtain ⟨_, _, _, a3⟩ :=
    stage_wheel_flags env (stage_button (stage_moved env s))
  simp only [doInterrupt]
  split_ifs
  · rfl
  · show (doInterruptStages env s).2.wheelApi = s.wheelApi
    rw [doInterruptStages, a3, a2, a1]
  · show (doInterruptStages env s).2.wheelApi = s.wheelApi
    rw [doInterruptStages, a3, a2, a1]

lemma wheelApi_fn01 (s : MouseState) :
    (int33_fn01 s).wheelApi = s.wheelApi := by
  unfold int33_fn01
  split <;> rfl

lemma wheelApi_fn04 (cx dx : Nat) (s : MouseState) :
    (int33_fn04 cx dx s).wheelApi = s.wheelApi := by
  simp only [int33_fn04, limit_coordinates]
  split_ifs <;> rfl

lemma wheelApi_fn05 (ax bx : Nat) (s : MouseState) :
    (int33_fn05 ax bx s).2.wheelApi = s.wheelApi := by
  unfold int33_fn05 get_reset_wheel_16bit
  split
  · split <;> rfl
  · split <;> rfl

lemma wheelApi_fn06 (ax bx : Nat) (s : MouseState) :
    (int33_fn06 ax bx s).2.wheelApi = s.wheelApi := by
  unfold int33_fn06 get_reset_wheel_16bit
  split
  · split <;> rfl
  · split <;> rfl

lemma wheelApi_step_false (env : Env) (s : MouseState) (c : Cmd)
    (hc : c ≠ Cmd.fn11) (h : s.wheelApi = false) :
    (step env s c).wheelApi = false := by
  cases c with
  | notifyMoved xr yr xa ya =>
    simpa only [step, wheelApi_notifyMoved] using h
  | notifyButton b => simpa only [step, wheelApi_notifyButton] using h
  | notifyWheel w => simpa only [step, wheelApi_notifyWheel] using h
  | interrupt => simpa only [step, wheelApi_doInterrupt] using h
  | fn01 => simpa only [step, wheelApi_fn01] using h
  | fn02 => exact h
  | fn04 cx dx => simpa only [step, wheelApi_fn04] using h
  | fn05 ax bx => simpa only [step, wheelApi_fn05] using h
  | fn06 ax bx => simpa only [step, wheelApi_fn06] using h
  | fn07 cx dx => exact h
  | fn09 bx cx w1 w2 => exact h
  | fn11 => exact absurd rfl hc
  | fn16 => exact h
  | fn17 buf => exact h
  | fn1a bx cx dx => exact h
  | resetHardware => rfl

lemma wheelApi_run_false (env : Env) (cmds : List Cmd) :
    ∀ s : MouseState, s.wheelApi = false → Cmd.fn11 ∉ cmds →
      (run env cmds s).wheelApi = false := by
  induction cmds with
  | nil => intro s h _; exact h
  | cons c cs ih =>
    intro s h hn
    have hc : c ≠ Cmd.fn11 := by
      intro he
      exact hn (by rw [he]; exact List.mem_cons_self _ _)
    have hcs : Cmd.fn11 ∉ cs := fun hm => hn (List.mem_cons_of_mem _ hm)
    show (run env cs (step env s c)).wheelApi = false
    exact ih _ (wheelApi_step_false env s c hc h) hcs

/-- Claim C7: as long as no command of the session has been INT 33h function
0x11 (which is the only operation enabling the WheelAPI), `NotifyWheel`
leaves the entire driver and pending-event state unchanged; and directly
after `reset_hardware` (which re-disables the WheelAPI) the gating applies
again. -/
theorem c7_wheel_gating (env : Env) (cmds : List Cmd) (s : MouseState)
    (w : Int) (h0 : s.wheelApi = false) (h1 : Cmd.fn11 ∉ cmds) :
    notifyWheel env w (run env cmds s) = run env cmds s
    ∧ (∀ (t : MouseState) (v : Int),
        notifyWheel env v (reset_hardware t) = reset_hardware t) := by
  constructor
  · have hw := wheelApi_run_false env cmds s h0 h1
    unfold notifyWheel
    rw [if_pos hw]
  · intro t v
    unfold notifyWheel
    rw [if_pos (show (reset_hardware t).wheelApi = false from rfl)]

/-- Claim C7 witness: after a hide-cursor call (and no function 0x11), a
wheel notification of +3 has no effect at all. -/
theorem c7_wheel_gating_witness :
    notifyWheel testEnv 3 (run testEnv [Cmd.fn02] testState) =
      run testEnv [Cmd.fn02] testState :=
  (c7_wheel_gating testEnv [Cmd.fn02] testState 3 rfl (by decide)).1
